import Mathlib

/-!
Shallow embedding of the per-frame simulation step of the Pong game in
src/src/main.rs.  Floating-point (`f32`) state is modelled over ℚ.  The
`Texture` stored in each `Entity` is replaced by its pixel dimensions
(`size`), the only data the update step reads from it.  The external
context read inside `GameState::update` (held keys via `input::is_key_down`,
screen dimensions via `get_width`/`get_height`, and the outcome of the
per-frame `Font::vector` load in the round-over branch) is passed in as an
`Input` record.  The Rust `update` mutates `self` in place and returns
`tetra::Result<()>`; accordingly the embedded `update` returns the mutated
state paired with an `Except String Unit` outcome, so that state mutated
before an error (the `push_str` that precedes the fallible font load)
is preserved exactly as in the source.
-/

attribute [local semireducible] Rat.add Rat.sub Rat.mul Rat.inv Rat.ofScientific

namespace Pong

/-- Two-dimensional vector over ℚ, modelling tetra's `Vec2<f32>`. -/
structure Vec2 where
  x : ℚ
  y : ℚ
deriving DecidableEq

/-- Componentwise addition, modelling `Vec2` addition (`+=` at main.rs:133). -/
def Vec2.add (a b : Vec2) : Vec2 := ⟨a.x + b.x, a.y + b.y⟩

/-- Axis-aligned rectangle, modelling `tetra::graphics::Rectangle`. -/
structure Rectangle where
  x : ℚ
  y : ℚ
  width : ℚ
  height : ℚ
deriving DecidableEq

/-- Modelled from the spec: `Rectangle::intersects` is tetra library code and
is not part of this repository; the spec (§4.1) describes it as the standard
AABB overlap test with boundary-inclusive overlap counted as intersecting. -/
def Rectangle.intersects (a b : Rectangle) : Bool :=
  decide (a.x ≤ b.x + b.width) && decide (b.x ≤ a.x + a.width) &&
  decide (a.y ≤ b.y + b.height) && decide (b.y ≤ a.y + a.height)

/-- A game object (paddle or ball): `Entity` of main.rs:24, with the texture
replaced by its fixed pixel dimensions. -/
structure Entity where
  position : Vec2
  velocity : Vec2
  size : Vec2
deriving DecidableEq

/-- The texture width (main.rs:43). -/
def Entity.width (e : Entity) : ℚ := e.size.x

/-- The texture height (main.rs:47). -/
def Entity.height (e : Entity) : ℚ := e.size.y

/-- Bounding rectangle at the current position (main.rs:51). -/
def Entity.bounds (e : Entity) : Rectangle :=
  ⟨e.position.x, e.position.y, e.width, e.height⟩

/-- Centre point of the entity (main.rs:60). -/
def Entity.centre (e : Entity) : Vec2 :=
  ⟨e.position.x + e.width / 2, e.position.y + e.height / 2⟩

/-- The aggregate game state (main.rs:68): two paddles, the ball, and the
winner string (empty = round in progress). -/
structure GameState where
  player1 : Entity
  player2 : Entity
  ball : Entity
  winner : String
deriving DecidableEq

/-- External per-frame context consumed by `update`: the five held keys it
polls, the screen dimensions, and whether the `Font::vector` call in the
round-over branch succeeds (it is external file I/O whose outcome the
simulation cannot determine). -/
structure Input where
  keyW : Bool
  keyS : Bool
  keyUp : Bool
  keyDown : Bool
  keyEnter : Bool
  screenWidth : ℚ
  screenHeight : ℚ
  fontOk : Bool
deriving DecidableEq

/-- Constant from main.rs:8. -/
def WINDOW_WIDTH : ℚ := 1920

/-- Constant from main.rs:9. -/
def WINDOW_HEIGHT : ℚ := 1080

/-- Constant from main.rs:10. -/
def PADDLE_SPEED : ℚ := 8

/-- Constant from main.rs:11. -/
def BALL_SPEED : ℚ := 10

/-- Constant from main.rs:12. -/
def PADDLE_SPIN : ℚ := 4

/-- Constant from main.rs:13. -/
def BALL_ACC : ℚ := 1 / 2

/-- Rust `f32::signum` as called at main.rs:149: it returns 1.0 for positive
numbers and for +0.0, and -1.0 for negative numbers and -0.0.  ℚ has a single
zero, corresponding to +0.0, so `signum 0 = 1`. -/
def signum (x : ℚ) : ℚ := if x < 0 then -1 else 1

/-- Paddle movement step (main.rs:117-131): W/S move paddle 1, Up/Down move
paddle 2, by `PADDLE_SPEED` each, applied in that order with no clamping. -/
def paddleMove (inp : Input) (s : GameState) : GameState :=
  let s1 := if inp.keyW then
    { s with player1 := { s.player1 with position :=
      { s.player1.position with y := s.player1.position.y - PADDLE_SPEED } } }
    else s
  let s2 := if inp.keyS then
    { s1 with player1 := { s1.player1 with position :=
      { s1.player1.position with y := s1.player1.position.y + PADDLE_SPEED } } }
    else s1
  let s3 := if inp.keyUp then
    { s2 with player2 := { s2.player2 with position :=
      { s2.player2.position with y := s2.player2.position.y - PADDLE_SPEED } } }
    else s2
  if inp.keyDown then
    { s3 with player2 := { s3.player2 with position :=
      { s3.player2.position with y := s3.player2.position.y + PADDLE_SPEED } } }
  else s3

/-- Ball movement step (main.rs:133): add the velocity to the position. -/
def ballMove (s : GameState) : GameState :=
  { s with ball := { s.ball with position := s.ball.position.add s.ball.velocity } }

/-- Paddle-hit detection (main.rs:139-145): ball bounds against paddle 1
first, then paddle 2; at most one paddle is reported hit. -/
def paddleHit (s : GameState) : Option Entity :=
  if (s.ball.bounds).intersects s.player1.bounds then some s.player1
  else if (s.ball.bounds).intersects s.player2.bounds then some s.player2
  else none

/-- Collision response (main.rs:147-154): reflect and amplify the horizontal
velocity, then add spin to the vertical velocity from the offset of the ball
centre relative to the paddle centre. -/
def collisionResponse (paddle : Entity) (s : GameState) : GameState :=
  let ball1 := { s.ball with velocity := { s.ball.velocity with
    x := -(s.ball.velocity.x + BALL_ACC * signum s.ball.velocity.x) } }
  let offset := (paddle.centre.y - ball1.centre.y) / paddle.height
  { s with ball := { ball1 with velocity := { ball1.velocity with
    y := ball1.velocity.y + PADDLE_SPIN * (-offset) } } }

/-- Paddle collision step: apply the collision response to the hit paddle,
if any (main.rs:147). -/
def paddleCollision (s : GameState) : GameState :=
  match paddleHit s with
  | some paddle => collisionResponse paddle s
  | none => s

/-- Wall bounce step (main.rs:156-160): if the ball's top edge is at or above
the top of the screen or its bottom edge at or below the bottom, negate the
vertical velocity. -/
def wallBounce (screenHeight : ℚ) (s : GameState) : GameState :=
  if s.ball.position.y ≤ 0 ∨ s.ball.position.y + s.ball.height ≥ screenHeight then
    { s with ball := { s.ball with velocity := { s.ball.velocity with
      y := -s.ball.velocity.y } } }
  else s

/-- Win detection step (main.rs:162-166): past the right edge Player 1 wins,
past the left edge Player 2 wins. -/
def winDetect (s : GameState) : GameState :=
  if s.ball.position.x > WINDOW_WIDTH then { s with winner := "Player 1" }
  else if s.ball.position.x < 0 then { s with winner := "Player 2" }
  else s

/-- Round-end handling (main.rs:168-190): while the winner string is
nonempty, append the announcement suffix, load the font (fallible: the `?`
at main.rs:173 propagates a failure, after the suffix was already appended),
and on Enter clear the winner and reset the ball to the screen centre with
the initial leftward velocity. -/
def roundEnd (inp : Input) (s : GameState) : GameState × Except String Unit :=
  if s.winner = "" then (s, Except.ok ())
  else
    let s1 : GameState := { s with winner :=
      s.winner ++ " wins!\nPress Enter to Restart or Esc to quit game" }
    if inp.fontOk then
      if inp.keyEnter then
        ({ s1 with
            winner := "",
            ball := { s1.ball with
                       position := ⟨inp.screenWidth / 2 - s1.ball.size.x / 2,
                                    inp.screenHeight / 2 - s1.ball.size.y / 2⟩,
                       velocity := ⟨-BALL_SPEED, 0⟩ } }, Except.ok ())
      else (s1, Except.ok ())
    else (s1, Except.error "FailedToLoadAsset")

/-- One frame of `GameState::update` (main.rs:116-193): paddle movement, ball
movement, paddle collision, wall bounce, win detection, round-end handling.
Returns the mutated state and the `tetra::Result` outcome. -/
def update (inp : Input) (s : GameState) : GameState × Except String Unit :=
  roundEnd inp (winDetect (wallBounce inp.screenHeight
    (paddleCollision (ballMove (paddleMove inp s)))))

/-- The state after one frame (the mutated `self`). -/
def updateState (inp : Input) (s : GameState) : GameState := (update inp s).1

/-- The `tetra::Result` outcome of one frame. -/
def updateResult (inp : Input) (s : GameState) : Except String Unit := (update inp s).2

/-- Whether the round-end branch of this frame performs the restart: the
winner string is nonempty when it is examined, the font load succeeded
(a font failure returns early through `?` before the Enter check), and
Enter is held. -/
def restartFires (inp : Input) (s : GameState) : Bool :=
  (!((winDetect (wallBounce inp.screenHeight
      (paddleCollision (ballMove (paddleMove inp s))))).winner == "")) &&
  inp.fontOk && inp.keyEnter

/-! Step lemmas: which fields each step of `update` leaves untouched. -/

lemma paddleMove_ball (inp : Input) (s : GameState) :
    (paddleMove inp s).ball = s.ball := by
  unfold paddleMove
  split <;> split <;> split <;> split <;> rfl

lemma paddleMove_winner (inp : Input) (s : GameState) :
    (paddleMove inp s).winner = s.winner := by
  unfold paddleMove
  split <;> split <;> split <;> split <;> rfl

lemma paddleMove_player1_x (inp : Input) (s : GameState) :
    (paddleMove inp s).player1.position.x = s.player1.position.x := by
  unfold paddleMove
  split <;> split <;> split <;> split <;> rfl

lemma paddleMove_player2_x (inp : Input) (s : GameState) :
    (paddleMove inp s).player2.position.x = s.player2.position.x := by
  unfold paddleMove
  split <;> split <;> split <;> split <;> rfl

lemma ballMove_player1 (s : GameState) : (ballMove s).player1 = s.player1 := rfl

lemma ballMove_player2 (s : GameState) : (ballMove s).player2 = s.player2 := rfl

lemma ballMove_winner (s : GameState) : (ballMove s).winner = s.winner := rfl

lemma ballMove_ball_position (s : GameState) :
    (ballMove s).ball.position = s.ball.position.add s.ball.velocity := rfl

lemma collisionResponse_player1 (p : Entity) (s : GameState) :
    (collisionResponse p s).player1 = s.player1 := rfl

lemma collisionResponse_player2 (p : Entity) (s : GameState) :
    (collisionResponse p s).player2 = s.player2 := rfl

lemma collisionResponse_winner (p : Entity) (s : GameState) :
    (collisionResponse p s).winner = s.winner := rfl

lemma collisionResponse_ball_position (p : Entity) (s : GameState) :
    (collisionResponse p s).ball.position = s.ball.position := rfl

lemma ballMove_ball_size (s : GameState) : (ballMove s).ball.size = s.ball.size := rfl

lemma collisionResponse_ball_size (p : Entity) (s : GameState) :
    (collisionResponse p s).ball.size = s.ball.size := rfl

lemma paddleCollision_ball_size (s : GameState) :
    (paddleCollision s).ball.size = s.ball.size := by
  unfold paddleCollision
  cases h : paddleHit s <;> rfl

lemma wallBounce_ball_size (h : ℚ) (s : GameState) :
    (wallBounce h s).ball.size = s.ball.size := by
  unfold wallBounce
  split <;> rfl

lemma paddleCollision_player1 (s : GameState) :
    (paddleCollision s).player1 = s.player1 := by
  unfold paddleCollision
  cases h : paddleHit s <;> rfl

lemma paddleCollision_player2 (s : GameState) :
    (paddleCollision s).player2 = s.player2 := by
  unfold paddleCollision
  cases h : paddleHit s <;> rfl

lemma paddleCollision_winner (s : GameState) :
    (paddleCollision s).winner = s.winner := by
  unfold paddleCollision
  cases h : paddleHit s <;> rfl

lemma paddleCollision_ball_position (s : GameState) :
    (paddleCollision s).ball.position = s.ball.position := by
  unfold paddleCollision
  cases h : paddleHit s <;> rfl

lemma wallBounce_player1 (h : ℚ) (s : GameState) :
    (wallBounce h s).player1 = s.player1 := by
  unfold wallBounce
  split <;> rfl

lemma wallBounce_player2 (h : ℚ) (s : GameState) :
    (wallBounce h s).player2 = s.player2 := by
  unfold wallBounce
  split <;> rfl

lemma wallBounce_winner (h : ℚ) (s : GameState) :
    (wallBounce h s).winner = s.winner := by
  unfold wallBounce
  split <;> rfl

lemma wallBounce_ball_position (h : ℚ) (s : GameState) :
    (wallBounce h s).ball.position = s.ball.position := by
  unfold wallBounce
  split <;> rfl

lemma winDetect_player1 (s : GameState) : (winDetect s).player1 = s.player1 := by
  unfold winDetect
  split
  · rfl
  · split <;> rfl

lemma winDetect_player2 (s : GameState) : (winDetect s).player2 = s.player2 := by
  unfold winDetect
  split
  · rfl
  · split <;> rfl

lemma winDetect_ball (s : GameState) : (winDetect s).ball = s.ball := by
  unfold winDetect
  split
  · rfl
  · split <;> rfl

lemma winDetect_winner_ne (s : GameState) (h : ¬s.winner = "") :
    ¬(winDetect s).winner = "" := by
  unfold winDetect
  split
  · simp
  · split
    · simp
    · exact h

lemma roundEnd_player1 (inp : Input) (s : GameState) :
    (roundEnd inp s).1.player1 = s.player1 := by
  simp only [roundEnd]
  split
  · rfl
  · split
    · split <;> rfl
    · rfl

lemma roundEnd_player2 (inp : Input) (s : GameState) :
    (roundEnd inp s).1.player2 = s.player2 := by
  simp only [roundEnd]
  split
  · rfl
  · split
    · split <;> rfl
    · rfl

lemma roundEnd_snd (inp : Input) (s : GameState) :
    (roundEnd inp s).2 = if s.winner = "" then Except.ok ()
      else if inp.fontOk then Except.ok () else Except.error "FailedToLoadAsset" := by
  simp only [roundEnd]
  split
  · simp
  · split
    · split <;> simp_all
    · simp_all

lemma roundEnd_restart (inp : Input) (s : GameState) (hw : ¬s.winner = "")
    (hf : inp.fontOk = true) (he : inp.keyEnter = true) :
    (roundEnd inp s).1 = { s with
      winner := "",
      ball := { s.ball with
                 position := ⟨inp.screenWidth / 2 - s.ball.size.x / 2,
                              inp.screenHeight / 2 - s.ball.size.y / 2⟩,
                 velocity := ⟨-BALL_SPEED, 0⟩ } } := by
  simp only [roundEnd, hf, he, if_true]
  rw [if_neg hw]

lemma roundEnd_ball_position_of_no_restart (inp : Input) (s : GameState)
    (h : s.winner = "" ∨ inp.fontOk = false ∨ inp.keyEnter = false) :
    (roundEnd inp s).1.ball.position = s.ball.position := by
  simp only [roundEnd]
  by_cases hw : s.winner = ""
  · rw [if_pos hw]
  · rw [if_neg hw]
    rcases h with h | h | h
    · exact absurd h hw
    · rw [h]
      rfl
    · cases hf : inp.fontOk
      · rfl
      · rw [h]
        rfl

/-! Concrete states and inputs used by the witnesses and counterexamples. -/

/-- Input with no keys held, the standard screen, and the font load
succeeding. -/
def idleInput : Input := ⟨false, false, false, false, false, 1920, 1080, true⟩

/-- Input with no keys held and the font load failing. -/
def noFontInput : Input := ⟨false, false, false, false, false, 1920, 1080, false⟩

/-- Input with only Enter held and the font load succeeding. -/
def restartInput : Input := ⟨false, false, false, false, true, 1920, 1080, true⟩

/-- State with "Player 1" recorded as winner and the ball resting mid-screen,
away from both walls and both paddles. -/
def wonIdleState : GameState :=
  ⟨⟨⟨16, 500⟩, ⟨0, 0⟩, ⟨8, 64⟩⟩, ⟨⟨1896, 500⟩, ⟨0, 0⟩, ⟨8, 64⟩⟩,
   ⟨⟨500, 500⟩, ⟨0, 0⟩, ⟨16, 16⟩⟩, "Player 1"⟩

/-- State in which the ball overlaps paddle 1, moving with horizontal
velocity `vx`. -/
def hitState (vx : ℚ) : GameState :=
  ⟨⟨⟨16, 90⟩, ⟨0, 0⟩, ⟨8, 64⟩⟩, ⟨⟨1896, 90⟩, ⟨0, 0⟩, ⟨8, 64⟩⟩,
   ⟨⟨20, 100⟩, ⟨vx, 0⟩, ⟨16, 16⟩⟩, ""⟩

/-- State with the ball past the right edge. -/
def ballRightState : GameState :=
  ⟨⟨⟨16, 500⟩, ⟨0, 0⟩, ⟨8, 64⟩⟩, ⟨⟨1896, 500⟩, ⟨0, 0⟩, ⟨8, 64⟩⟩,
   ⟨⟨1921, 500⟩, ⟨10, 0⟩, ⟨16, 16⟩⟩, ""⟩

/-- State with the ball past the left edge. -/
def ballLeftState : GameState :=
  ⟨⟨⟨16, 500⟩, ⟨0, 0⟩, ⟨8, 64⟩⟩, ⟨⟨1896, 500⟩, ⟨0, 0⟩, ⟨8, 64⟩⟩,
   ⟨⟨-1, 500⟩, ⟨-10, 0⟩, ⟨16, 16⟩⟩, ""⟩

/-- State with the ball touching the top wall. -/
def topBallState : GameState :=
  ⟨⟨⟨16, 500⟩, ⟨0, 0⟩, ⟨8, 64⟩⟩, ⟨⟨1896, 500⟩, ⟨0, 0⟩, ⟨8, 64⟩⟩,
   ⟨⟨500, 0⟩, ⟨-10, 3⟩, ⟨16, 16⟩⟩, ""⟩

/-- Degenerate state in which a screen-sized ball overlaps both paddles. -/
def doubleHitState : GameState :=
  ⟨⟨⟨16, 500⟩, ⟨0, 0⟩, ⟨8, 64⟩⟩, ⟨⟨1896, 500⟩, ⟨0, 0⟩, ⟨8, 64⟩⟩,
   ⟨⟨0, 0⟩, ⟨-10, 0⟩, ⟨2000, 1080⟩⟩, ""⟩

/-- State in which the ball overlaps paddle 1 with the two centres at the
same height. -/
def centredHitState : GameState :=
  ⟨⟨⟨16, 100⟩, ⟨0, 0⟩, ⟨8, 64⟩⟩, ⟨⟨1896, 500⟩, ⟨0, 0⟩, ⟨8, 64⟩⟩,
   ⟨⟨20, 124⟩, ⟨-10, 7⟩, ⟨16, 16⟩⟩, ""⟩

/-- State with no winner and the ball moving mid-screen, intersecting
neither paddle. -/
def cruisingState : GameState :=
  ⟨⟨⟨16, 500⟩, ⟨0, 0⟩, ⟨8, 64⟩⟩, ⟨⟨1896, 500⟩, ⟨0, 0⟩, ⟨8, 64⟩⟩,
   ⟨⟨500, 500⟩, ⟨-10, 3⟩, ⟨16, 16⟩⟩, ""⟩

/-! Claim C1. -/

/-- Claim C1 (amended): the update step completes without an error exactly
when the per-frame font load succeeds or no winner is recorded when the
round-end branch runs; it is not total — with a winner recorded and the
font load failing, the `?` at main.rs:173 propagates the error. -/
theorem update_ok_iff (inp : Input) (s : GameState) :
    updateResult inp s = Except.ok () ↔
      (inp.fontOk = true ∨
       (winDetect (wallBounce inp.screenHeight
         (paddleCollision (ballMove (paddleMove inp s))))).winner = "") := by
  unfold updateResult update
  rw [roundEnd_snd]
  by_cases hw : (winDetect (wallBounce inp.screenHeight
      (paddleCollision (ballMove (paddleMove inp s))))).winner = ""
  · simp [hw]
  · rw [if_neg hw]
    cases hf : inp.fontOk
    · simp [hw]
    · simp

/-- Claim C1 (counterexample): with a winner recorded and the font load
failing, the update step returns an error. -/
theorem update_can_fail :
    updateResult noFontInput wonIdleState = Except.error "FailedToLoadAsset" := by
  rfl

/-! Claim C2. -/

/-- Claim C2 (amended): on a paddle hit the new horizontal velocity is
`-(vx + BALL_ACC * signum vx)` where `signum` is Rust `f32::signum`: +1 for
positive `vx` and for `vx = 0` (i.e. +0.0), -1 for negative `vx`.  A hit
with `vx = -10` yields `21/2 = 10.5` as claimed, but a hit with `vx = 0`
yields `-1/2`, not 0. -/
theorem hit_vx_formula (s : GameState) (p : Entity) (hp : paddleHit s = some p) :
    (paddleCollision s).ball.velocity.x
        = -(s.ball.velocity.x + BALL_ACC * signum s.ball.velocity.x) ∧
    (s.ball.velocity.x = -10 → (paddleCollision s).ball.velocity.x = 21 / 2) ∧
    (s.ball.velocity.x = 0 → (paddleCollision s).ball.velocity.x = -(1 / 2)) := by
  simp only [paddleCollision, hp]
  refine ⟨rfl, ?_, ?_⟩
  · intro h
    have hc : (collisionResponse p s).ball.velocity.x
        = -(s.ball.velocity.x + BALL_ACC * signum s.ball.velocity.x) := rfl
    rw [hc, h]
    norm_num [signum, BALL_ACC]
  · intro h
    have hc : (collisionResponse p s).ball.velocity.x
        = -(s.ball.velocity.x + BALL_ACC * signum s.ball.velocity.x) := rfl
    rw [hc, h]
    norm_num [signum, BALL_ACC]

/-- Claim C2 (witness): the concrete `vx = -10` hit from the claim. -/
theorem hit_vx_formula_witness :
    paddleHit (hitState (-10)) = some (hitState (-10)).player1 ∧
    (hitState (-10)).ball.velocity.x = -10 ∧
    (paddleCollision (hitState (-10))).ball.velocity.x = 21 / 2 :=
  ⟨by decide, by decide,
   (hit_vx_formula (hitState (-10)) (hitState (-10)).player1 (by decide)).2.1 (by decide)⟩

/-- Claim C2 (counterexample): on a hit with `vx = 0` the new horizontal
velocity is `-1/2`, not 0, because Rust `f32::signum` returns 1.0 at +0.0. -/
theorem hit_at_zero_vx_not_zero :
    (paddleCollision (hitState 0)).ball.velocity.x = -(1 / 2) ∧
    ¬(paddleCollision (hitState 0)).ball.velocity.x = 0 := by
  constructor
  · rfl
  · decide

/-! Claim C3. -/

/-- Claim C3 (code evaluated at the failing input): with "Player 1" already
recorded and nothing else happening, each of two consecutive updates appends
the announcement suffix again, so the winner-formatting step is not
idempotent: after two frames the suffix occurs twice. -/
theorem winner_suffix_double_append :
    (updateState idleInput wonIdleState).winner
        = "Player 1 wins!\nPress Enter to Restart or Esc to quit game" ∧
    (updateState idleInput (updateState idleInput wonIdleState)).winner
        = "Player 1 wins!\nPress Enter to Restart or Esc to quit game wins!\nPress Enter to Restart or Esc to quit game" := by
  constructor
  · rfl
  · rfl

/-! Claim C4. -/

/-- Claim C4: the win-detection step records winner "Player 1" whenever the
ball's x position exceeds `WINDOW_WIDTH`, and "Player 2" whenever it is
below 0. -/
theorem winDetect_sides (s : GameState) :
    (s.ball.position.x > WINDOW_WIDTH → (winDetect s).winner = "Player 1") ∧
    (s.ball.position.x < 0 → (winDetect s).winner = "Player 2") := by
  constructor
  · intro h
    unfold winDetect
    rw [if_pos h]
  · intro h
    have h2 : ¬s.ball.position.x > WINDOW_WIDTH := by
      simp only [WINDOW_WIDTH]
      push_neg
      exact le_of_lt (h.trans (by norm_num))
    unfold winDetect
    rw [if_neg h2, if_pos h]

/-- Claim C4 (witness): ball at `x = WINDOW_WIDTH + 1 = 1921` gives winner
"Player 1"; ball at `x = -1` gives winner "Player 2". -/
theorem winDetect_sides_witness :
    (ballRightState.ball.position.x > WINDOW_WIDTH ∧
     (winDetect ballRightState).winner = "Player 1") ∧
    (ballLeftState.ball.position.x < 0 ∧
     (winDetect ballLeftState).winner = "Player 2") :=
  ⟨⟨by decide, (winDetect_sides ballRightState).1 (by decide)⟩,
   ⟨by decide, (winDetect_sides ballLeftState).2 (by decide)⟩⟩

/-! Claim C5. -/

/-- Claim C5: whenever the ball's top edge is at or above 0 or its bottom
edge at or below the screen height, the wall-bounce step negates the
vertical velocity; and `update` applies the wall-bounce step to the
post-collision state unconditionally, whether or not a paddle collision
fired this frame. -/
theorem wallBounce_every_frame (inp : Input) (s t : GameState) :
    ((t.ball.position.y ≤ 0 ∨ t.ball.position.y + t.ball.height ≥ inp.screenHeight) →
      (wallBounce inp.screenHeight t).ball.velocity.y = -t.ball.velocity.y) ∧
    update inp s = roundEnd inp (winDetect (wallBounce inp.screenHeight
      (paddleCollision (ballMove (paddleMove inp s))))) := by
  constructor
  · intro h
    unfold wallBounce
    rw [if_pos h]
  · rfl

/-- Claim C5 (witness): ball touching the top wall has its vertical velocity
negated. -/
theorem wallBounce_every_frame_witness :
    (topBallState.ball.position.y ≤ 0 ∨
     topBallState.ball.position.y + topBallState.ball.height ≥ idleInput.screenHeight) ∧
    (wallBounce idleInput.screenHeight topBallState).ball.velocity.y
        = -topBallState.ball.velocity.y :=
  ⟨by decide, (wallBounce_every_frame idleInput topBallState topBallState).1 (by decide)⟩

/-! Claim C6. -/

/-- Claim C6: when the ball's bounds intersect both paddles' bounds in the
same frame, the collision step resolves against paddle 1 only; paddle 2's
collision is ignored. -/
theorem paddle1_precedence (s : GameState)
    (h1 : (s.ball.bounds).intersects s.player1.bounds = true)
    (_h2 : (s.ball.bounds).intersects s.player2.bounds = true) :
    paddleCollision s = collisionResponse s.player1 s := by
  simp [paddleCollision, paddleHit, h1]

/-- Claim C6 (witness): a screen-sized ball overlapping both paddles is
resolved against paddle 1. -/
theorem paddle1_precedence_witness :
    ((doubleHitState.ball.bounds).intersects doubleHitState.player1.bounds = true ∧
     (doubleHitState.ball.bounds).intersects doubleHitState.player2.bounds = true) ∧
    paddleCollision doubleHitState = collisionResponse doubleHitState.player1 doubleHitState :=
  ⟨⟨by decide, by decide⟩, paddle1_precedence doubleHitState (by decide) (by decide)⟩

/-! Claim C7. -/

/-- Claim C7: from any state with a winner recorded, an update with Enter
held (and the font load succeeding) clears the winner, puts the ball at
`(screen_w/2 - ball_w/2, screen_h/2 - ball_h/2)` with velocity
`(-BALL_SPEED, 0)`, and leaves both paddle positions exactly what they were
before the restart (i.e. after this frame's paddle-movement step). -/
theorem restart_resets_ball (inp : Input) (s : GameState) (hw : ¬s.winner = "")
    (hf : inp.fontOk = true) (he : inp.keyEnter = true) :
    (updateState inp s).winner = "" ∧
    (updateState inp s).ball.position =
      ⟨inp.screenWidth / 2 - s.ball.size.x / 2, inp.screenHeight / 2 - s.ball.size.y / 2⟩ ∧
    (updateState inp s).ball.velocity = ⟨-BALL_SPEED, 0⟩ ∧
    (updateState inp s).player1.position = (paddleMove inp s).player1.position ∧
    (updateState inp s).player2.position = (paddleMove inp s).player2.position := by
  have hw1 : ¬(wallBounce inp.screenHeight
      (paddleCollision (ballMove (paddleMove inp s)))).winner = "" := by
    rw [wallBounce_winner, paddleCollision_winner, ballMove_winner, paddleMove_winner]
    exact hw
  have hwT := winDetect_winner_ne _ hw1
  have hsz : (winDetect (wallBounce inp.screenHeight
      (paddleCollision (ballMove (paddleMove inp s))))).ball.size = s.ball.size := by
    rw [winDetect_ball, wallBounce_ball_size, paddleCollision_ball_size,
      ballMove_ball_size, paddleMove_ball]
  unfold updateState update
  rw [roundEnd_restart _ _ hwT hf he]
  refine ⟨rfl, ?_, rfl, ?_, ?_⟩
  · rw [hsz]
  · rw [winDetect_player1, wallBounce_player1, paddleCollision_player1, ballMove_player1]
  · rw [winDetect_player2, wallBounce_player2, paddleCollision_player2, ballMove_player2]

/-- Claim C7 (witness): restart from the concrete won state. -/
theorem restart_resets_ball_witness :
    (¬wonIdleState.winner = "" ∧ restartInput.fontOk = true ∧ restartInput.keyEnter = true) ∧
    ((updateState restartInput wonIdleState).winner = "" ∧
     (updateState restartInput wonIdleState).ball.position =
       ⟨restartInput.screenWidth / 2 - wonIdleState.ball.size.x / 2,
        restartInput.screenHeight / 2 - wonIdleState.ball.size.y / 2⟩ ∧
     (updateState restartInput wonIdleState).ball.velocity = ⟨-BALL_SPEED, 0⟩ ∧
     (updateState restartInput wonIdleState).player1.position
        = (paddleMove restartInput wonIdleState).player1.position ∧
     (updateState restartInput wonIdleState).player2.position
        = (paddleMove restartInput wonIdleState).player2.position) :=
  ⟨⟨by decide, rfl, rfl⟩,
   restart_resets_ball restartInput wonIdleState (by decide) rfl rfl⟩

/-! Claim C8. -/

/-- Claim C8: on a paddle hit the spin term adds
`PADDLE_SPIN * -((paddle.centre.y - ball.centre.y) / paddle.height)` to the
vertical velocity, and when the two centres are at the same height the
vertical velocity is unchanged. -/
theorem hit_spin_formula (s : GameState) (p : Entity) (hp : paddleHit s = some p) :
    (paddleCollision s).ball.velocity.y
        = s.ball.velocity.y + PADDLE_SPIN * -((p.centre.y - s.ball.centre.y) / p.height) ∧
    (p.centre.y = s.ball.centre.y → (paddleCollision s).ball.velocity.y = s.ball.velocity.y) := by
  simp only [paddleCollision, hp]
  constructor
  · rfl
  · intro h
    have hc : (collisionResponse p s).ball.velocity.y
        = s.ball.velocity.y + PADDLE_SPIN * -((p.centre.y - s.ball.centre.y) / p.height) := rfl
    rw [hc, h]
    simp

/-- Claim C8 (witness): a hit with the ball vertically centred on paddle 1
leaves the vertical velocity unchanged. -/
theorem hit_spin_formula_witness :
    (paddleHit centredHitState = some centredHitState.player1 ∧
     centredHitState.player1.centre.y = centredHitState.ball.centre.y) ∧
    (paddleCollision centredHitState).ball.velocity.y = centredHitState.ball.velocity.y :=
  ⟨⟨by decide, by decide⟩,
   (hit_spin_formula centredHitState centredHitState.player1 (by decide)).2 (by decide)⟩

/-! Claim C9. -/

/-- Claim C9: in a frame where the ball intersects neither paddle and no
restart fires, the update changes the ball position by exactly the pre-step
velocity on both axes.  (The conclusion in fact needs only the no-restart
hypothesis: the collision response changes velocity, never position.) -/
theorem ball_moves_by_velocity (inp : Input) (s : GameState)
    (_h1 : (s.ball.bounds).intersects s.player1.bounds = false)
    (_h2 : (s.ball.bounds).intersects s.player2.bounds = false)
    (hr : restartFires inp s = false) :
    (updateState inp s).ball.position = s.ball.position.add s.ball.velocity := by
  have hd : (winDetect (wallBounce inp.screenHeight
      (paddleCollision (ballMove (paddleMove inp s))))).winner = ""
      ∨ inp.fontOk = false ∨ inp.keyEnter = false := by
    unfold restartFires at hr
    by_cases hw : (winDetect (wallBounce inp.screenHeight
        (paddleCollision (ballMove (paddleMove inp s))))).winner = ""
    · exact Or.inl hw
    · right
      cases hf : inp.fontOk
      · exact Or.inl rfl
      · cases he : inp.keyEnter
        · exact Or.inr rfl
        · rw [hf, he] at hr
          simp [hw] at hr
  unfold updateState update
  rw [roundEnd_ball_position_of_no_restart _ _ hd, winDetect_ball,
    wallBounce_ball_position, paddleCollision_ball_position,
    ballMove_ball_position, paddleMove_ball]

/-- Claim C9 (witness): a mid-screen ball away from both paddles moves by
exactly its velocity. -/
theorem ball_moves_by_velocity_witness :
    ((cruisingState.ball.bounds).intersects cruisingState.player1.bounds = false ∧
     (cruisingState.ball.bounds).intersects cruisingState.player2.bounds = false ∧
     restartFires idleInput cruisingState = false) ∧
    (updateState idleInput cruisingState).ball.position =
      cruisingState.ball.position.add cruisingState.ball.velocity :=
  ⟨⟨by decide, by decide, by decide⟩,
   ball_moves_by_velocity idleInput cruisingState (by decide) (by decide) (by decide)⟩

/-! Claim C10. -/

/-- Claim C10: one update step never changes the x coordinate of either
paddle, for any state, held keys and screen dimensions: input moves paddles
only vertically and restart does not touch them. -/
theorem paddle_x_never_changes (inp : Input) (s : GameState) :
    (updateState inp s).player1.position.x = s.player1.position.x ∧
    (updateState inp s).player2.position.x = s.player2.position.x := by
  unfold updateState update
  constructor
  · rw [roundEnd_player1, winDetect_player1, wallBounce_player1,
      paddleCollision_player1, ballMove_player1, paddleMove_player1_x]
  · rw [roundEnd_player2, winDetect_player2, wallBounce_player2,
      paddleCollision_player2, ballMove_player2, paddleMove_player2_x]

end Pong
